import Mathlib

/-!
Verification of the mqtt-adapter plugin bridge (src/main.rs): the wire
message model, the registration handshake address derivation, the relay
loop of `GatewayBridge::run_forever`, and the dispatcher `Plugin::handle_msg`.

Conventions of the shallow embedding:
* `serde_json::Value` is modelled by the `Json` inductive; the floating-point
  `f64` field `timeout` is modelled as a rational number (the structured
  round-trip does not depend on float formatting).
* Rust `HashMap` is modelled as an association list with first-match lookup;
  indexing a missing key (`map[&k]`, which panics in Rust) is modelled by an
  explicit `panicked` outcome.
* The nanomsg sockets are modelled as streams (lists) of frames held in the
  relay state; the external JSON text codec is a parameter of the relay
  environment (the spec places the concrete encoding library out of scope).
-/

namespace MqttAdapter

/-- A JSON value tree, modelling `serde_json::Value`. Numbers are modelled
as rationals. -/
inductive Json where
  | null : Json
  | bool (b : Bool) : Json
  | num (q : Rat) : Json
  | str (s : String) : Json
  | arr (elems : List Json) : Json
  | obj (fields : List (String × Json)) : Json

/-- `struct Property { name: String, value: Value }` from src/main.rs. -/
structure Property where
  name : String
  value : Json

/-- First-match association-list lookup, modelling `HashMap` lookup and
JSON-object field access by name. -/
def mapLookup {α : Type} (key : String) : List (String × α) → Option α
  | [] => none
  | (k, v) :: rest => if k = key then some v else mapLookup key rest

/-- The inbound Gateway→Plugin steady-state family: `enum GatewayMessage`
from src/main.rs (serde adjacently tagged by `messageType` with content
`data`, `rename_all = "camelCase"`). -/
inductive GatewayMessage where
  | unloadPlugin (plugin_id : String)
  | unloadAdapter (plugin_id adapter_id : String)
  | setProperty (plugin_id adapter_id device_id : String) (property : Property)
  | startPairing (plugin_id adapter_id : String) (timeout : Rat)
  | cancelPairing (plugin_id adapter_id : String)
  | removeThing (plugin_id adapter_id device_id : String)
  | cancelRemoveThing (plugin_id adapter_id device_id : String)

/-- The outbound Plugin→Gateway steady-state family: `enum PluginMessage`
from src/main.rs. Note the Rust field of `HandleDeviceAdded` is spelled
`typ` (and `rename_all = "camelCase"` leaves it as `"typ"` on the wire);
`Map<String, Value>` fields are association lists. -/
inductive PluginMessage where
  | pluginUnloaded (plugin_id : String)
  | adapterUnloaded (plugin_id adapter_id : String)
  | addAdapter (plugin_id adapter_id name : String)
  | handleDeviceAdded (plugin_id adapter_id id name typ : String)
      (properties actions : List (String × Json))
  | handleDeviceRemoved (plugin_id adapter_id id : String)
  | propertyChanged (plugin_id adapter_id device_id : String) (property : Property)

/-- The handshake reply family: `enum GatewayRegisterMessage` from src/main.rs. -/
inductive GatewayRegisterMessage where
  | registerPluginReply (plugin_id ipc_base_addr : String)

/-- `const BASE_URL` from src/main.rs. -/
def BASE_URL : String := "ipc:///tmp"

/-- `const ADAPTER_MANAGER_URL` from src/main.rs. -/
def ADAPTER_MANAGER_URL : String := "ipc:///tmp/gateway.addonManager"

/-- Serialization of `Property` (serde derive: fields in declaration order,
no rename). -/
def encodeProperty (p : Property) : Json :=
  .obj [("name", .str p.name), ("value", p.value)]

/-- Wrap a tag and payload fields the way serde's adjacently tagged
representation does: `{"messageType": tag, "data": {fields}}`. -/
def wireWrap (tag : String) (fields : List (String × Json)) : Json :=
  .obj [("messageType", .str tag), ("data", .obj fields)]

/-- Serialization of `PluginMessage`, modelling the derived `Serialize`
impl in src/main.rs (adjacent tagging by `messageType`/`data`, camelCase
variant tags and field names; the `typ` field stays `"typ"`). -/
def encodePluginMessage : PluginMessage → Json
  | .pluginUnloaded p => wireWrap "pluginUnloaded" [("pluginId", .str p)]
  | .adapterUnloaded p a =>
      wireWrap "adapterUnloaded" [("pluginId", .str p), ("adapterId", .str a)]
  | .addAdapter p a n =>
      wireWrap "addAdapter"
        [("pluginId", .str p), ("adapterId", .str a), ("name", .str n)]
  | .handleDeviceAdded p a i n t props acts =>
      wireWrap "handleDeviceAdded"
        [("pluginId", .str p), ("adapterId", .str a), ("id", .str i),
         ("name", .str n), ("typ", .str t),
         ("properties", .obj props), ("actions", .obj acts)]
  | .handleDeviceRemoved p a i =>
      wireWrap "handleDeviceRemoved"
        [("pluginId", .str p), ("adapterId", .str a), ("id", .str i)]
  | .propertyChanged p a d pr =>
      wireWrap "propertyChanged"
        [("pluginId", .str p), ("adapterId", .str a), ("deviceId", .str d),
         ("property", encodeProperty pr)]

/-- Modelled from the spec: serialization of the inbound family. The source
derives only `Deserialize` for `GatewayMessage`; §8's round-trip law needs
the encoder, which follows the same serde adjacently-tagged camelCase
convention applied to the declared shape. -/
def encodeGatewayMessage : GatewayMessage → Json
  | .unloadPlugin p => wireWrap "unloadPlugin" [("pluginId", .str p)]
  | .unloadAdapter p a =>
      wireWrap "unloadAdapter" [("pluginId", .str p), ("adapterId", .str a)]
  | .setProperty p a d pr =>
      wireWrap "setProperty"
        [("pluginId", .str p), ("adapterId", .str a), ("deviceId", .str d),
         ("property", encodeProperty pr)]
  | .startPairing p a t =>
      wireWrap "startPairing"
        [("pluginId", .str p), ("adapterId", .str a), ("timeout", .num t)]
  | .cancelPairing p a =>
      wireWrap "cancelPairing" [("pluginId", .str p), ("adapterId", .str a)]
  | .removeThing p a d =>
      wireWrap "removeThing"
        [("pluginId", .str p), ("adapterId", .str a), ("deviceId", .str d)]
  | .cancelRemoveThing p a d =>
      wireWrap "cancelRemoveThing"
        [("pluginId", .str p), ("adapterId", .str a), ("deviceId", .str d)]

/-- Project a JSON string. -/
def Json.asStr : Json → Option String
  | .str s => some s
  | _ => none

/-- Project a JSON number. -/
def Json.asNum : Json → Option Rat
  | .num q => some q
  | _ => none

/-- Project a JSON object's field list. -/
def Json.asObj : Json → Option (List (String × Json))
  | .obj fields => some fields
  | _ => none

/-- Deserialization of `Property` (field lookup by name, order-insensitive,
unknown fields ignored, as serde does). -/
def decodeProperty (j : Json) : Option Property := do
  let fields ← j.asObj
  let name ← (← mapLookup "name" fields).asStr
  let value ← mapLookup "value" fields
  pure ⟨name, value⟩

/-- Field of the `data` payload read as a string. -/
def strField (key : String) (data : List (String × Json)) : Option String := do
  (← mapLookup key data).asStr

/-- Decoder of the `unloadPlugin` payload. -/
def decGwUnloadPlugin (data : List (String × Json)) : Option GatewayMessage := do
  pure (.unloadPlugin (← strField "pluginId" data))

/-- Decoder of the `unloadAdapter` payload. -/
def decGwUnloadAdapter (data : List (String × Json)) : Option GatewayMessage := do
  pure (.unloadAdapter (← strField "pluginId" data) (← strField "adapterId" data))

/-- Decoder of the `setProperty` payload. -/
def decGwSetProperty (data : List (String × Json)) : Option GatewayMessage := do
  let p ← strField "pluginId" data
  let a ← strField "adapterId" data
  let d ← strField "deviceId" data
  let pr ← decodeProperty (← mapLookup "property" data)
  pure (.setProperty p a d pr)

/-- Decoder of the `startPairing` payload. -/
def decGwStartPairing (data : List (String × Json)) : Option GatewayMessage := do
  let p ← strField "pluginId" data
  let a ← strField "adapterId" data
  let t ← (← mapLookup "timeout" data).asNum
  pure (.startPairing p a t)

/-- Decoder of the `cancelPairing` payload. -/
def decGwCancelPairing (data : List (String × Json)) : Option GatewayMessage := do
  pure (.cancelPairing (← strField "pluginId" data) (← strField "adapterId" data))

/-- Decoder of the `removeThing` payload. -/
def decGwRemoveThing (data : List (String × Json)) : Option GatewayMessage := do
  pure (.removeThing (← strField "pluginId" data) (← strField "adapterId" data)
    (← strField "deviceId" data))

/-- Decoder of the `cancelRemoveThing` payload. -/
def decGwCancelRemoveThing (data : List (String × Json)) : Option GatewayMessage := do
  pure (.cancelRemoveThing (← strField "pluginId" data) (← strField "adapterId" data)
    (← strField "deviceId" data))

/-- Deserialization of `GatewayMessage`, modelling the derived `Deserialize`
impl in src/main.rs: read the `messageType` tag, then the `data` payload's
fields by name (order-insensitive, unknown fields ignored, unknown tag
rejected). -/
def decodeGatewayMessage (j : Json) : Option GatewayMessage := do
  let top ← j.asObj
  let tag ← (← mapLookup "messageType" top).asStr
  let data ← (← mapLookup "data" top).asObj
  if tag = "unloadPlugin" then decGwUnloadPlugin data
  else if tag = "unloadAdapter" then decGwUnloadAdapter data
  else if tag = "setProperty" then decGwSetProperty data
  else if tag = "startPairing" then decGwStartPairing data
  else if tag = "cancelPairing" then decGwCancelPairing data
  else if tag = "removeThing" then decGwRemoveThing data
  else if tag = "cancelRemoveThing" then decGwCancelRemoveThing data
  else none

/-- Decoder of the `pluginUnloaded` payload. -/
def decPgPluginUnloaded (data : List (String × Json)) : Option PluginMessage := do
  pure (.pluginUnloaded (← strField "pluginId" data))

/-- Decoder of the `adapterUnloaded` payload. -/
def decPgAdapterUnloaded (data : List (String × Json)) : Option PluginMessage := do
  pure (.adapterUnloaded (← strField "pluginId" data) (← strField "adapterId" data))

/-- Decoder of the `addAdapter` payload. -/
def decPgAddAdapter (data : List (String × Json)) : Option PluginMessage := do
  pure (.addAdapter (← strField "pluginId" data) (← strField "adapterId" data)
    (← strField "name" data))

/-- Decoder of the `handleDeviceAdded` payload; the device kind is read from
the wire field `"typ"` (the declared Rust field name under camelCase). -/
def decPgHandleDeviceAdded (data : List (String × Json)) : Option PluginMessage := do
  let p ← strField "pluginId" data
  let a ← strField "adapterId" data
  let i ← strField "id" data
  let n ← strField "name" data
  let t ← strField "typ" data
  let props ← (← mapLookup "properties" data).asObj
  let acts ← (← mapLookup "actions" data).asObj
  pure (.handleDeviceAdded p a i n t props acts)

/-- Decoder of the `handleDeviceRemoved` payload. -/
def decPgHandleDeviceRemoved (data : List (String × Json)) : Option PluginMessage := do
  pure (.handleDeviceRemoved (← strField "pluginId" data) (← strField "adapterId" data)
    (← strField "id" data))

/-- Decoder of the `propertyChanged` payload. -/
def decPgPropertyChanged (data : List (String × Json)) : Option PluginMessage := do
  let p ← strField "pluginId" data
  let a ← strField "adapterId" data
  let d ← strField "deviceId" data
  let pr ← decodeProperty (← mapLookup "property" data)
  pure (.propertyChanged p a d pr)

/-- Modelled from the spec: deserialization of the outbound family. The
source derives only `Serialize` for `PluginMessage`; §8's round-trip law
needs the decoder, which follows serde's convention for the declared shape
(so the device's kind is read from the wire field `"typ"`). -/
def decodePluginMessage (j : Json) : Option PluginMessage := do
  let top ← j.asObj
  let tag ← (← mapLookup "messageType" top).asStr
  let data ← (← mapLookup "data" top).asObj
  if tag = "pluginUnloaded" then decPgPluginUnloaded data
  else if tag = "adapterUnloaded" then decPgAdapterUnloaded data
  else if tag = "addAdapter" then decPgAddAdapter data
  else if tag = "handleDeviceAdded" then decPgHandleDeviceAdded data
  else if tag = "handleDeviceRemoved" then decPgHandleDeviceRemoved data
  else if tag = "propertyChanged" then decPgPropertyChanged data
  else none

/-- The field names of an encoded message's `data` payload, in wire order. -/
def dataKeys (j : Json) : List String :=
  match j with
  | .obj top =>
      match mapLookup "data" top with
      | some (.obj fields) => fields.map Prod.fst
      | _ => []
  | _ => []

/-- C4 counterexample: the encoded `handleDeviceAdded` event does not carry a
field named `type`; the wire field produced by the source's declaration is
named `typ`, so the claim's field-name list fails on this concrete message. -/
theorem handleDeviceAdded_has_typ_not_type :
    dataKeys (encodePluginMessage
      (.handleDeviceAdded "mqtt" "a1" "dev1" "Lamp" "onOffSwitch" [] [])) =
      ["pluginId", "adapterId", "id", "name", "typ", "properties", "actions"] ∧
    "type" ∉ dataKeys (encodePluginMessage
      (.handleDeviceAdded "mqtt" "a1" "dev1" "Lamp" "onOffSwitch" [] [])) := by
  exact ⟨rfl, by decide⟩

/-- C4 (amended): for every message variant of both steady-state families,
encoding to the wire format and then decoding reproduces the identical
structured value, and each variant's `data` payload carries exactly the field
names of §6, except that `handleDeviceAdded` carries `typ` instead of `type`. -/
theorem wire_roundtrip_and_field_names :
    (∀ m : GatewayMessage, decodeGatewayMessage (encodeGatewayMessage m) = some m) ∧
    (∀ m : PluginMessage, decodePluginMessage (encodePluginMessage m) = some m) ∧
    (∀ p, dataKeys (encodeGatewayMessage (.unloadPlugin p)) = ["pluginId"]) ∧
    (∀ p a, dataKeys (encodeGatewayMessage (.unloadAdapter p a)) =
      ["pluginId", "adapterId"]) ∧
    (∀ p a d pr, dataKeys (encodeGatewayMessage (.setProperty p a d pr)) =
      ["pluginId", "adapterId", "deviceId", "property"]) ∧
    (∀ p a t, dataKeys (encodeGatewayMessage (.startPairing p a t)) =
      ["pluginId", "adapterId", "timeout"]) ∧
    (∀ p a, dataKeys (encodeGatewayMessage (.cancelPairing p a)) =
      ["pluginId", "adapterId"]) ∧
    (∀ p a d, dataKeys (encodeGatewayMessage (.removeThing p a d)) =
      ["pluginId", "adapterId", "deviceId"]) ∧
    (∀ p a d, dataKeys (encodeGatewayMessage (.cancelRemoveThing p a d)) =
      ["pluginId", "adapterId", "deviceId"]) ∧
    (∀ p, dataKeys (encodePluginMessage (.pluginUnloaded p)) = ["pluginId"]) ∧
    (∀ p a, dataKeys (encodePluginMessage (.adapterUnloaded p a)) =
      ["pluginId", "adapterId"]) ∧
    (∀ p a n, dataKeys (encodePluginMessage (.addAdapter p a n)) =
      ["pluginId", "adapterId", "name"]) ∧
    (∀ p a i n t props acts,
      dataKeys (encodePluginMessage (.handleDeviceAdded p a i n t props acts)) =
      ["pluginId", "adapterId", "id", "name", "typ", "properties", "actions"]) ∧
    (∀ p a i, dataKeys (encodePluginMessage (.handleDeviceRemoved p a i)) =
      ["pluginId", "adapterId", "id"]) ∧
    (∀ p a d pr, dataKeys (encodePluginMessage (.propertyChanged p a d pr)) =
      ["pluginId", "adapterId", "deviceId", "property"]) := by
  refine ⟨fun m => ?_, fun m => ?_, fun _ => rfl, fun _ _ => rfl, fun _ _ _ _ => rfl,
    fun _ _ _ => rfl, fun _ _ => rfl, fun _ _ _ => rfl, fun _ _ _ => rfl,
    fun _ => rfl, fun _ _ => rfl, fun _ _ _ => rfl, fun _ _ _ _ _ _ _ => rfl,
    fun _ _ _ => rfl, fun _ _ _ _ => rfl⟩
  · cases m <;> rfl
  · cases m <;> rfl

/-- `struct Device` from src/main.rs: id and a property map. -/
structure Device where
  id : String
  props : List (String × Json)

/-- `struct Adapter` from src/main.rs: id and a device map. -/
structure Adapter where
  id : String
  devices : List (String × Device)

/-- `struct Plugin` from src/main.rs: local id and the adapter registry
(`HashMap<String, Adapter>` as an association list). The mpsc sender and
receiver are represented by the `sent` output of `handle_msg` and by the
inbound message argument, respectively. -/
structure Plugin where
  id : String
  adapters : List (String × Adapter)

/-- Modelled from the spec: the Adapter capability set of §6
(`setProperty(deviceId, property)`, `startPairing(timeoutSeconds)`,
`cancelPairing()`, each returning an outcome). src/main.rs calls these
methods on `Adapter` but declares no impl for them, so they are external
collaborators; an `AdapterOps` value supplies their behaviour. -/
structure AdapterOps where
  set_property : Adapter → String → Property → Except String Unit
  start_pairing : Adapter → Except String Unit
  cancel_pairing : Adapter → Except String Unit

/-- One observable invocation of an adapter method by the dispatcher. -/
inductive AdapterCall where
  | setPropertyCall (adapter_id device_id : String) (property : Property)
  | startPairingCall (adapter_id : String)
  | cancelPairingCall (adapter_id : String)

/-- The adapter id an invocation is addressed to. -/
def AdapterCall.adapterId : AdapterCall → String
  | .setPropertyCall a _ _ => a
  | .startPairingCall a => a
  | .cancelPairingCall a => a

/-- The result of one `handle_msg` call: `ok`/`err` mirror
`Result<(), io::Error>`; `panicked` marks the Rust panic raised by indexing
`self.adapters[&adapter_id]` on a missing key. -/
inductive HandleResult where
  | ok
  | err (e : String)
  | panicked

/-- Map an adapter outcome onto the dispatcher's returned `Result`. -/
def ofOutcome : Except String Unit → HandleResult
  | .ok _ => .ok
  | .error e => .err e

/-- Everything observable about one `handle_msg` call: the returned result,
the adapter invocations made, the registry afterwards, and the messages sent
on the outbound queue (`self.sender`, which `handle_msg` never uses). -/
structure HandleOutput where
  result : HandleResult
  calls : List AdapterCall
  adapters : List (String × Adapter)
  sent : List PluginMessage

/-- `Plugin::handle_msg` from src/main.rs. Each command first checks
`plugin_id != self.id` and silently succeeds on mismatch; `SetProperty`,
`StartPairing` and `CancelPairing` then index the registry — a missing
`adapter_id` is the panicking branch — and invoke the adapter method;
the four remaining tags return `Ok(())` unconditionally. -/
def Plugin.handle_msg (ops : AdapterOps) (p : Plugin) :
    GatewayMessage → HandleOutput
  | .setProperty plugin_id adapter_id device_id property =>
      if plugin_id ≠ p.id then ⟨.ok, [], p.adapters, []⟩
      else
        match mapLookup adapter_id p.adapters with
        | none => ⟨.panicked, [], p.adapters, []⟩
        | some adapter =>
            ⟨ofOutcome (ops.set_property adapter device_id property),
             [.setPropertyCall adapter_id device_id property], p.adapters, []⟩
  | .unloadPlugin _ => ⟨.ok, [], p.adapters, []⟩
  | .unloadAdapter _ _ => ⟨.ok, [], p.adapters, []⟩
  | .startPairing plugin_id adapter_id _ =>
      if plugin_id ≠ p.id then ⟨.ok, [], p.adapters, []⟩
      else
        match mapLookup adapter_id p.adapters with
        | none => ⟨.panicked, [], p.adapters, []⟩
        | some adapter =>
            ⟨ofOutcome (ops.start_pairing adapter),
             [.startPairingCall adapter_id], p.adapters, []⟩
  | .cancelPairing plugin_id adapter_id =>
      if plugin_id ≠ p.id then ⟨.ok, [], p.adapters, []⟩
      else
        match mapLookup adapter_id p.adapters with
        | none => ⟨.panicked, [], p.adapters, []⟩
        | some adapter =>
            ⟨ofOutcome (ops.cancel_pairing adapter),
             [.cancelPairingCall adapter_id], p.adapters, []⟩
  | .removeThing _ _ _ => ⟨.ok, [], p.adapters, []⟩
  | .cancelRemoveThing _ _ _ => ⟨.ok, [], p.adapters, []⟩

/-- The `pluginId` every inbound steady-state message carries. -/
def GatewayMessage.pluginId : GatewayMessage → String
  | .unloadPlugin p => p
  | .unloadAdapter p _ => p
  | .setProperty p _ _ _ => p
  | .startPairing p _ _ => p
  | .cancelPairing p _ => p
  | .removeThing p _ _ => p
  | .cancelRemoveThing p _ _ => p

/-- An `AdapterOps` whose operations all succeed, for concrete evaluations. -/
def opsOk : AdapterOps :=
  ⟨fun _ _ _ => .ok (), fun _ => .ok (), fun _ => .ok ()⟩

/-- C1: refuted on the code. A `SetProperty` whose `pluginId` matches the
local id but whose `adapterId` is not in the registry does not produce a
reported NotFound outcome: `Plugin::handle_msg` indexes
`self.adapters[&adapter_id]`, which panics on the missing key (the registry
is left unchanged, but the process faults instead of reporting). -/
theorem handle_msg_missing_adapter_panics :
    Plugin.handle_msg opsOk ⟨"mqtt", []⟩
      (.setProperty "mqtt" "a1" "d1" ⟨"on", .bool true⟩) =
      ⟨.panicked, [], [], []⟩ := rfl

/-- C6: an inbound steady-state message whose `pluginId` differs from the
local plugin id is silently ignored: `handle_msg` returns `Ok(())`, makes no
adapter invocation, leaves the registry unchanged and sends nothing on the
outbound queue. -/
theorem handle_msg_foreign_plugin_ignored (ops : AdapterOps) (p : Plugin)
    (m : GatewayMessage) (h : m.pluginId ≠ p.id) :
    Plugin.handle_msg ops p m = ⟨.ok, [], p.adapters, []⟩ := by
  cases m <;>
    simp only [GatewayMessage.pluginId] at h <;>
    simp [Plugin.handle_msg, h]

/-- C6 witness: a `SetProperty` addressed to plugin id `zwave` is ignored by
the local plugin `mqtt`. -/
theorem handle_msg_foreign_plugin_ignored_witness :
    Plugin.handle_msg opsOk ⟨"mqtt", []⟩
      (.setProperty "zwave" "a1" "d1" ⟨"on", .bool true⟩) =
      ⟨.ok, [], [], []⟩ :=
  handle_msg_foreign_plugin_ignored opsOk ⟨"mqtt", []⟩
    (.setProperty "zwave" "a1" "d1" ⟨"on", .bool true⟩) (by decide)

/-- C9: frame conditions of `Plugin::handle_msg`: for every inbound message
it leaves the registry unchanged, sends nothing on the outbound queue, and
every adapter invocation it makes (necessarily a `setProperty`,
`startPairing` or `cancelPairing`, the only constructors of `AdapterCall`)
is addressed to an adapter id present in the registry. -/
theorem handle_msg_frame_conditions (ops : AdapterOps) (p : Plugin)
    (m : GatewayMessage) :
    (Plugin.handle_msg ops p m).adapters = p.adapters ∧
    (Plugin.handle_msg ops p m).sent = [] ∧
    ((Plugin.handle_msg ops p m).calls.all
      (fun c => (mapLookup c.adapterId p.adapters).isSome)) = true := by
  cases m <;> simp only [Plugin.handle_msg]
  case unloadPlugin pid => exact ⟨trivial, trivial, rfl⟩
  case unloadAdapter pid aid => exact ⟨trivial, trivial, rfl⟩
  case removeThing pid aid did => exact ⟨trivial, trivial, rfl⟩
  case cancelRemoveThing pid aid did => exact ⟨trivial, trivial, rfl⟩
  all_goals
    split
    · exact ⟨rfl, rfl, rfl⟩
    · split
      · exact ⟨rfl, rfl, rfl⟩
      · rename_i adapter heq
        simp [AdapterCall.adapterId, heq]

/-- `GatewayBridge::run_forever` derives the persistent Pair-socket address
from the handshake reply as `format!("{}/{}", BASE_URL, ipc_base_addr)`,
binding only `ipc_base_addr` from the reply. -/
def pairAddr : GatewayRegisterMessage → String
  | .registerPluginReply _ ipc_base_addr => BASE_URL ++ "/" ++ ipc_base_addr

/-- C10: the persistent channel address depends only on the reply's
`ipcBaseAddr`: two replies differing in their `pluginId` yield the same
address, and that address is `"ipc:///tmp/" ++ ipcBaseAddr` — no comparison
with the local plugin id occurs. -/
theorem pairAddr_ignores_plugin_id :
    ∀ pid pid' addr : String,
      pairAddr (.registerPluginReply pid addr) =
        pairAddr (.registerPluginReply pid' addr) ∧
      pairAddr (.registerPluginReply pid addr) = "ipc:///tmp/" ++ addr :=
  fun _ _ _ => ⟨rfl, rfl⟩

/-- The environment of the relay loop: the external JSON text codec (the
spec places the concrete encoding library out of scope) and whether
`socket_pair.write_all` succeeds. -/
structure RelayEnv where
  parse : List Nat → Option GatewayMessage
  serialize : PluginMessage → List Nat
  writeOk : Bool

/-- The state of the steady-state loop of `GatewayBridge::run_forever`:
`reqIn` holds the frames readable on `socket` (the Req handshake socket
the loop's `nb_read_to_end` actually targets), `pairIn` the frames arriving
on `socket_pair` (the persistent Pair channel), `buf` the read buffer
declared once before the loop, `inbound` the messages sent on `msg_sender`,
`outbound` the pending outbound queue of `msg_receiver`, `written` the
messages written to `socket_pair`, and `pairOpen` whether `endpoint_pair`
is still open. -/
structure RelayState where
  reqIn : List (List Nat)
  pairIn : List (List Nat)
  buf : List Nat
  inbound : List GatewayMessage
  outbound : List PluginMessage
  written : List PluginMessage
  pairOpen : Bool

/-- Result of one iteration of the relay loop body. -/
inductive StepResult where
  | next (s : RelayState)
  | done (s : RelayState)
  | panicked (s : RelayState)

/-- The read half of one iteration: `socket.nb_read_to_end(&mut buf)`
appends the available bytes to the persistent buffer (it is never cleared),
then `serde_json::from_slice(&buf)` parses the whole accumulated buffer and
a successful parse is sent on `msg_sender`. No data makes the non-blocking
read return an error and the parse is skipped. Note the source reads
`socket`, the Req handshake socket — never `socket_pair`. -/
def readPhase (env : RelayEnv) (s : RelayState) : RelayState :=
  match s.reqIn with
  | [] => s
  | b :: rest =>
      match env.parse (s.buf ++ b) with
      | some m =>
          { s with reqIn := rest, buf := s.buf ++ b, inbound := s.inbound ++ [m] }
      | none => { s with reqIn := rest, buf := s.buf ++ b }

/-- Whether a message is the designated shutdown event
(`PluginMessage::PluginUnloaded`). -/
def isPluginUnloaded : PluginMessage → Bool
  | .pluginUnloaded _ => true
  | _ => false

/-- The write half of one iteration: `try_recv` dequeues at most one
outbound message; `socket_pair.write_all(..).unwrap()` writes it, panicking
if the write fails; a written `PluginUnloaded` shuts `endpoint_pair` down
and returns `Ok(())` from `run_forever`. -/
def writePhase (env : RelayEnv) (s1 : RelayState) : StepResult :=
  match s1.outbound with
  | [] => .next s1
  | m :: rest =>
      if env.writeOk then
        if isPluginUnloaded m then
          .done { s1 with outbound := rest, written := s1.written ++ [m],
                          pairOpen := false }
        else
          .next { s1 with outbound := rest, written := s1.written ++ [m] }
      else .panicked { s1 with outbound := rest }

/-- One full iteration of the loop in `GatewayBridge::run_forever`. -/
def relayStep (env : RelayEnv) (s : RelayState) : StepResult :=
  writePhase env (readPhase env s)

/-- Result of running the relay loop with a fuel bound: still `running`
when fuel ran out, `done` when the loop returned `Ok(())`, `panicked` when
an `unwrap` panicked. -/
inductive RunResult where
  | running (s : RelayState)
  | done (s : RelayState)
  | panicked (s : RelayState)

/-- The steady-state loop of `GatewayBridge::run_forever`, iterated a given
number of times (the fixed 33 ms sleep is irrelevant to the embedding). -/
def run_forever (env : RelayEnv) : Nat → RelayState → RunResult
  | 0, s => .running s
  | fuel + 1, s =>
      match relayStep env s with
      | .next s1 => run_forever env fuel s1
      | .done s1 => .done s1
      | .panicked s1 => .panicked s1

/-- The state carried by a run result. -/
def RunResult.state : RunResult → RelayState
  | .running s => s
  | .done s => s
  | .panicked s => s

/-- With no frame pending on the Req socket, the read half of an iteration
leaves the state untouched (the non-blocking read returns an error). -/
theorem readPhase_empty (env : RelayEnv) (s : RelayState) (h : s.reqIn = []) :
    readPhase env s = s := by
  unfold readPhase
  rw [h]

/-- The read half never touches the outbound queue, the written trace or the
channel's open flag. -/
theorem readPhase_frame (env : RelayEnv) (s : RelayState) :
    (readPhase env s).outbound = s.outbound ∧
    (readPhase env s).written = s.written ∧
    (readPhase env s).pairOpen = s.pairOpen := by
  unfold readPhase
  rcases s.reqIn with _ | ⟨b, rest⟩
  · exact ⟨rfl, rfl, rfl⟩
  · dsimp only
    rcases env.parse (s.buf ++ b) with _ | m
    · exact ⟨rfl, rfl, rfl⟩
    · exact ⟨rfl, rfl, rfl⟩

/-- A demonstration parse function: the frame `[1]` is a well-formed
steady-state message, everything else is malformed. -/
def parseDemo : List Nat → Option GatewayMessage :=
  fun b => if b = [1] then some (.unloadPlugin "mqtt") else none

/-- C2: refuted on the code. The loop's read step targets `socket`, the Req
handshake socket, not `socket_pair`: with a parseable frame waiting on the
Pair channel and nothing on the Req socket, five iterations leave the state
unchanged — the frame is never read and nothing reaches the inbound queue —
whereas the same frame placed on the Req socket is read and enqueued. -/
theorem relay_reads_req_socket_not_pair :
    parseDemo [1] = some (.unloadPlugin "mqtt") ∧
    run_forever ⟨parseDemo, fun _ => [], true⟩ 5
      ⟨[], [[1]], [], [], [], [], true⟩ =
      .running ⟨[], [[1]], [], [], [], [], true⟩ ∧
    run_forever ⟨parseDemo, fun _ => [], true⟩ 5
      ⟨[[1]], [], [], [], [], [], true⟩ =
      .running ⟨[], [], [1], [.unloadPlugin "mqtt"], [], [], true⟩ := by
  exact ⟨rfl, rfl, rfl⟩

/-- C3: refuted on the code. `buf` is declared once outside the loop and
`nb_read_to_end` appends to it; it is never cleared. Reading the frame `[1]`
on the first iteration leaves `buf = [1]` at the start of the second
iteration (the claim requires it empty), and the second read accumulates to
`[1, 2]`, so the second parse attempt sees the stale first frame's bytes. -/
theorem relay_buffer_accumulates :
    run_forever ⟨fun _ => none, fun _ => [], true⟩ 1
      ⟨[[1], [2]], [], [], [], [], [], true⟩ =
      .running ⟨[[2]], [], [1], [], [], [], true⟩ ∧
    run_forever ⟨fun _ => none, fun _ => [], true⟩ 2
      ⟨[[1], [2]], [], [], [], [], [], true⟩ =
      .running ⟨[], [], [1, 2], [], [], [], true⟩ := by
  exact ⟨rfl, rfl⟩

/-- C7: refuted on the code. When the write of a dequeued outbound message
fails, `socket_pair.write_all(..).unwrap()` panics: the iteration ends in
`panicked` — the relay terminates as a fault instead of logging and
continuing on subsequent iterations. -/
theorem relay_write_failure_panics :
    run_forever ⟨fun _ => none, fun _ => [], false⟩ 1
      ⟨[], [], [], [], [.adapterUnloaded "mqtt" "a1"], [], true⟩ =
      .panicked ⟨[], [], [], [], [], [], true⟩ := by
  exact rfl

/-- Unfolding the fuelled loop by one iteration. -/
theorem run_forever_succ (env : RelayEnv) (fuel : Nat) (s : RelayState) :
    run_forever env (fuel + 1) s =
      match relayStep env s with
      | .next s1 => run_forever env fuel s1
      | .done s1 => .done s1
      | .panicked s1 => .panicked s1 := rfl

/-- Draining helper for C5: with writes succeeding, an empty Req stream and
the shutdown event sitting behind `q₁` non-shutdown messages, the loop
writes `q₁` then the shutdown event, closes the channel and returns, leaving
everything enqueued after the shutdown event untouched. -/
theorem relay_drain_to_shutdown (q₁ : List PluginMessage) :
    ∀ (env : RelayEnv) (s : RelayState) (q₂ : List PluginMessage) (pid : String),
      env.writeOk = true → s.reqIn = [] →
      s.outbound = q₁ ++ .pluginUnloaded pid :: q₂ →
      q₁.all (fun m => !isPluginUnloaded m) = true →
      run_forever env (q₁.length + 1) s =
        .done { s with outbound := q₂,
                       written := s.written ++ q₁ ++ [.pluginUnloaded pid],
                       pairOpen := false } := by
  induction q₁ with
  | nil =>
      intro env s q₂ pid hwrite hreq hout _
      have hstep : relayStep env s =
          .done { s with outbound := q₂,
                         written := s.written ++ [.pluginUnloaded pid],
                         pairOpen := false } := by
        unfold relayStep
        rw [readPhase_empty env s hreq]
        unfold writePhase
        rw [hout]
        simp [hwrite, isPluginUnloaded]
      simp only [List.length_nil]
      rw [run_forever_succ, hstep]
      simp
  | cons m q₁ ih =>
      intro env s q₂ pid hwrite hreq hout hall
      simp only [List.all_cons, Bool.and_eq_true, Bool.not_eq_true'] at hall
      have hstep : relayStep env s =
          .next { s with outbound := q₁ ++ .pluginUnloaded pid :: q₂,
                         written := s.written ++ [m] } := by
        unfold relayStep
        rw [readPhase_empty env s hreq]
        unfold writePhase
        rw [hout]
        simp [List.cons_append, hwrite, hall.1]
      have hrest := ih env
        { s with outbound := q₁ ++ .pluginUnloaded pid :: q₂,
                 written := s.written ++ [m] } q₂ pid hwrite hreq rfl hall.2
      simp only [List.length_cons]
      rw [run_forever_succ, hstep]
      dsimp only
      rw [hrest]
      simp

/-- Inversion of the write half: a `done` outcome closes the channel and its
last write is the shutdown event. -/
theorem writePhase_done_inv (env : RelayEnv) (s1 s2 : RelayState)
    (h : writePhase env s1 = .done s2) :
    (∃ pid, s2.written.getLast? = some (.pluginUnloaded pid)) ∧
    s2.pairOpen = false := by
  unfold writePhase at h
  split at h
  · exact StepResult.noConfusion h
  · split at h
    · split at h
      · rename_i m rest hq hw hu
        cases h
        refine ⟨?_, rfl⟩
        rcases m with pid | _ | _ | _ | _ | _
        · exact ⟨pid, List.getLast?_concat _⟩
        all_goals simp [isPluginUnloaded] at hu
      · exact StepResult.noConfusion h
    · exact StepResult.noConfusion h

/-- Graceful-return helper for C5: whenever the loop returns `Ok(())`, the
channel has been shut and the last message written is the shutdown event —
there is no other graceful termination path. -/
theorem relay_done_inv (env : RelayEnv) :
    ∀ (fuel : Nat) (s s₁ : RelayState), run_forever env fuel s = .done s₁ →
      (∃ pid, s₁.written.getLast? = some (.pluginUnloaded pid)) ∧
      s₁.pairOpen = false := by
  intro fuel
  induction fuel with
  | zero => intro s s₁ h; exact RunResult.noConfusion h
  | succ fuel ih =>
      intro s s₁ h
      rcases hstep : relayStep env s with s' | s' | s' <;>
        rw [run_forever_succ, hstep] at h <;> dsimp only at h
      · exact ih s' s₁ h
      · cases h
        exact writePhase_done_inv env (readPhase env s) _ hstep
      · exact RunResult.noConfusion h

/-- C5: dequeuing the shutdown event makes the relay loop write it, close
the external channel and return, exactly once, with messages enqueued after
it never written (first conjunct); and the shutdown path is the only
graceful return: every `done` outcome has the channel closed and the
shutdown event as the last write (second conjunct). -/
theorem relay_shutdown_exactly_once :
    (∀ (q₁ : List PluginMessage) (env : RelayEnv) (s : RelayState)
        (q₂ : List PluginMessage) (pid : String),
      env.writeOk = true → s.reqIn = [] →
      s.outbound = q₁ ++ .pluginUnloaded pid :: q₂ →
      q₁.all (fun m => !isPluginUnloaded m) = true →
      run_forever env (q₁.length + 1) s =
        .done { s with outbound := q₂,
                       written := s.written ++ q₁ ++ [.pluginUnloaded pid],
                       pairOpen := false }) ∧
    (∀ (env : RelayEnv) (fuel : Nat) (s s₁ : RelayState),
      run_forever env fuel s = .done s₁ →
      (∃ pid, s₁.written.getLast? = some (.pluginUnloaded pid)) ∧
      s₁.pairOpen = false) :=
  ⟨relay_drain_to_shutdown, fun env => relay_done_inv env⟩

/-- C5 witness: one non-shutdown message followed by the shutdown event is
drained in two iterations; the shutdown event is the last write, the event
queued behind it is never written, and the channel ends closed. -/
theorem relay_shutdown_exactly_once_witness :
    run_forever ⟨fun _ => none, fun _ => [], true⟩ 2
      ⟨[], [], [], [],
       [.addAdapter "mqtt" "a1" "n", .pluginUnloaded "mqtt",
        .pluginUnloaded "mqtt"], [], true⟩ =
      .done ⟨[], [], [], [], [.pluginUnloaded "mqtt"],
             [.addAdapter "mqtt" "a1" "n", .pluginUnloaded "mqtt"], false⟩ := by
  exact relay_shutdown_exactly_once.1 [.addAdapter "mqtt" "a1" "n"]
    ⟨fun _ => none, fun _ => [], true⟩
    ⟨[], [], [], [],
     [.addAdapter "mqtt" "a1" "n", .pluginUnloaded "mqtt",
      .pluginUnloaded "mqtt"], [], true⟩
    [.pluginUnloaded "mqtt"] "mqtt" rfl rfl rfl (by decide)

/-- Prefix helper for C8: when writes succeed, the messages written by a run
are exactly the first `k` messages of the outbound queue, in queue order,
with `k` at most the number of iterations (`try_recv` dequeues at most one
message per iteration) and the rest of the queue left in place. -/
theorem relay_written_prefix (env : RelayEnv) (hwrite : env.writeOk = true) :
    ∀ (fuel : Nat) (s : RelayState), ∃ k, k ≤ fuel ∧
      (run_forever env fuel s).state.written = s.written ++ s.outbound.take k ∧
      (run_forever env fuel s).state.outbound = s.outbound.drop k := by
  intro fuel
  induction fuel with
  | zero =>
      intro s
      exact ⟨0, Nat.le_refl 0, by simp [run_forever, RunResult.state],
        by simp [run_forever, RunResult.state]⟩
  | succ fuel ih =>
      intro s
      obtain ⟨ho, hw, hp⟩ := readPhase_frame env s
      rcases hq : s.outbound with _ | ⟨m, rest⟩
      · have hstep : relayStep env s = .next (readPhase env s) := by
          unfold relayStep writePhase
          rw [ho, hq]
        obtain ⟨k, hk, h1, h2⟩ := ih (readPhase env s)
        refine ⟨k, Nat.le_succ_of_le hk, ?_, ?_⟩
        · rw [run_forever_succ, hstep]
          dsimp only
          rw [h1, hw, ho, hq]
        · rw [run_forever_succ, hstep]
          dsimp only
          rw [h2, ho, hq]
      · cases hu : isPluginUnloaded m
        · have hstep : relayStep env s =
              .next { readPhase env s with outbound := rest, written := (readPhase env s).written ++ [m] } := by
            unfold relayStep writePhase
            rw [ho, hq]
            simp [hwrite, hu]
          obtain ⟨k, hk, h1, h2⟩ := ih
            { readPhase env s with outbound := rest, written := (readPhase env s).written ++ [m] }
          refine ⟨k + 1, Nat.succ_le_succ hk, ?_, ?_⟩
          · rw [run_forever_succ, hstep]
            dsimp only
            rw [h1]
            dsimp only
            rw [hw, List.take_succ_cons]
            simp
          · rw [run_forever_succ, hstep]
            dsimp only
            rw [h2]
            dsimp only
            rw [List.drop_succ_cons]
        · have hstep : relayStep env s =
              .done { readPhase env s with outbound := rest, written := (readPhase env s).written ++ [m], pairOpen := false } := by
            unfold relayStep writePhase
            rw [ho, hq]
            simp [hwrite, hu]
          refine ⟨1, Nat.succ_le_succ (Nat.zero_le fuel), ?_, ?_⟩
          · rw [run_forever_succ, hstep]
            dsimp only [RunResult.state]
            rw [hw]
            simp
          · rw [run_forever_succ, hstep]
            dsimp only [RunResult.state]
            simp

/-- C8: the outbound direction is FIFO. Starting from an empty written
trace, if messages sit at queue positions `i < j` and position `j` got
written, then the trace holds the message from position `i` at trace index
`i` and the one from position `j` at trace index `j` — so the earlier
enqueued message is written strictly before the later one — and the trace
length never exceeds the iteration count (at most one write per
iteration). -/
theorem relay_outbound_fifo (env : RelayEnv) (fuel i j : Nat) (s : RelayState)
    (hwrite : env.writeOk = true) (h0 : s.written = []) (hij : i < j)
    (hj : j < (run_forever env fuel s).state.written.length) :
    (run_forever env fuel s).state.written.get? i = s.outbound.get? i ∧
    (run_forever env fuel s).state.written.get? j = s.outbound.get? j ∧
    (run_forever env fuel s).state.written.length ≤ fuel := by
  obtain ⟨k, hk, h1, h2⟩ := relay_written_prefix env hwrite fuel s
  rw [h0] at h1
  simp only [List.nil_append] at h1
  rw [h1] at hj ⊢
  have hjk : j < k :=
    lt_of_lt_of_le hj (by rw [List.length_take]; exact min_le_left _ _)
  refine ⟨List.get?_take (lt_trans hij hjk), List.get?_take hjk, ?_⟩
  rw [List.length_take]
  exact le_trans (min_le_left _ _) hk

/-- A relay environment for concrete FIFO evaluation: nothing parses and
writes succeed. -/
def envFifoDemo : RelayEnv := ⟨fun _ => none, fun _ => [], true⟩

/-- A relay state with two ordinary outbound messages queued. -/
def sFifoDemo : RelayState :=
  ⟨[], [], [], [],
   [.addAdapter "mqtt" "a1" "lamps", .adapterUnloaded "mqtt" "a1"], [], true⟩

/-- C8 witness: two messages enqueued in order are written at trace
positions 0 and 1 within two iterations. -/
theorem relay_outbound_fifo_witness :
    (run_forever envFifoDemo 2 sFifoDemo).state.written.get? 0 =
      sFifoDemo.outbound.get? 0 ∧
    (run_forever envFifoDemo 2 sFifoDemo).state.written.get? 1 =
      sFifoDemo.outbound.get? 1 ∧
    (run_forever envFifoDemo 2 sFifoDemo).state.written.length ≤ 2 :=
  relay_outbound_fifo envFifoDemo 2 0 1 sFifoDemo rfl rfl (by decide) (by decide)

end MqttAdapter
